import Mathlib

/-!
Verification development for the `strapi-provider-upload-google-cloud-storage`
provider (`src/lib/index.js`).  The provider exposes `checkServiceAccount`,
`checkBucket` and `init` (returning `upload` and `delete`).  The pure parts
(object-key and URL derivation, configuration validation) are embedded as
Lean functions; the promise-based control flow of `upload`, `delete` and
`checkBucket` is embedded as programs of a small single-threaded task machine
whose suspension points are the network calls, mirroring the JavaScript
microtask semantics: synchronous code runs to completion, a network call's
continuation runs only after the call completes, and a promise settles with
whichever of `resolve`/`reject` is called first.
-/

/-- JavaScript truthiness of a string-valued field: `undefined` (`none`) and
the empty string are falsy. -/
def truthyS : Option String → Bool
  | none => false
  | some s => s != ""

/-- JavaScript template-string rendering of a possibly-undefined string. -/
def jstr : Option String → String
  | none => "undefined"
  | some s => s

/-- Character map of the `slugify` npm package (v1.x), restricted to ASCII
input: `&` maps to `and`, every other ASCII character maps to itself (the
package's table for accented/non-ASCII characters is not modelled; every
input in this development is plain ASCII). -/
def slugCharMap (c : Char) : String :=
  if c = Char.ofNat 38 then "and" else String.singleton c

/-- Characters kept by `slugify`'s removal regex `[^\w\s$*_+~.()'"!\-:@]`. -/
def slugAllowed (c : Char) : Bool :=
  c.isAlphanum || c = '_' || c.isWhitespace ||
    [Char.ofNat 36, '*', '+', '~', '.', '(', ')', Char.ofNat 39, Char.ofNat 34,
      '!', '-', ':', '@'].contains c

/-- Remove leading and trailing whitespace (JavaScript `String.prototype.trim`
on the character class relevant here). -/
def trimWs (l : List Char) : List Char :=
  ((l.dropWhile Char.isWhitespace).reverse.dropWhile Char.isWhitespace).reverse

/-- Replace every maximal run of whitespace by a single `-`
(JavaScript `.replace(/[\s]+/g, '-')`); the Bool argument records whether the
previous character was whitespace. -/
def collapseWsAux : List Char → Bool → List Char
  | [], _ => []
  | c :: cs, prevWs =>
    if c.isWhitespace then
      if prevWs then collapseWsAux cs true else '-' :: collapseWsAux cs true
    else c :: collapseWsAux cs false

/-- The `slugify` npm package with default options (note: the default does
NOT lowercase): map characters through the character map, delete characters
outside `[\w\s$*_+~.()'"!\-:@]`, trim, and replace whitespace runs by `-`. -/
def slugify (s : String) : String :=
  let mapped := s.toList.foldl (fun acc c => acc ++ (slugCharMap c).toList) []
  let removed := mapped.filter slugAllowed
  String.mk (collapseWsAux (trimWs removed) false)

/-- The part of a path after the last `/`. -/
def lastComponent (s : String) : String :=
  String.mk ((s.toList.reverse.takeWhile (fun c => c ≠ '/')).reverse)

/-- Node's `path.basename(nm, ext)`: the last path component, with `ext`
stripped when it is a proper (case-sensitive) suffix of that component. -/
def jsBasename (nm ext : String) : String :=
  let base := lastComponent nm
  if ext.toList.isSuffixOf base.toList && base != ext then
    String.mk (base.toList.take (base.toList.length - ext.toList.length))
  else base

/-- JavaScript `String.prototype.toLowerCase` (ASCII). -/
def lowerStr (s : String) : String :=
  String.mk (s.toList.map Char.toLower)

/-- Replace the first occurrence of `pat` (scanning left to right). -/
def replFirstAux (pat repl : List Char) : List Char → List Char
  | [] => []
  | c :: cs =>
    if pat.isPrefixOf (c :: cs) then repl ++ (c :: cs).drop pat.length
    else c :: replFirstAux pat repl cs

/-- JavaScript `String.prototype.replace` with a non-global regexp that
matches the literal `pat`: only the first occurrence is replaced. -/
def replaceFirst (s pat repl : String) : String :=
  String.mk (replFirstAux pat.toList repl.toList s.toList)

/-- Whether `pat` occurs as a contiguous substring of `s`. -/
def strContains (s pat : String) : Bool :=
  (List.range (s.toList.length + 1)).any
    (fun i => (s.toList.drop i).take pat.toList.length == pat.toList)

/-- One entry of a Strapi `file.related` array: only the `ref` and `refId`
fields are read by the provider; `ref` is kept optional because the code
tests its truthiness. -/
structure Related where
  ref : Option String
  refId : String
deriving DecidableEq, Repr

/-- The fields of a Strapi file object read or written by the provider
(`name`, `ext`, `path`, `hash`, `related`, `mime`, `url`; the buffer's bytes
never influence key, URL or control flow and are not modelled). -/
structure FileDesc where
  name : String
  ext : String
  path : Option String
  hash : String
  related : List Related
  mime : String
  url : Option String
deriving DecidableEq, Repr

/-- Provider configuration as read by the source: `serviceAccount`,
`bucketName` and `bucketLocation` are tested for truthiness, `baseUrl` is
used as a string template. -/
structure Config where
  serviceAccount : Option String
  bucketName : Option String
  bucketLocation : Option String
  baseUrl : String
deriving DecidableEq, Repr

/-- `upload`'s `backupPath`:
`file.related && file.related.length > 0 && file.related[0].ref ?
 ref + "/" + refId : file.hash` (src/lib/index.js lines 122-125). -/
def backupPath (f : FileDesc) : String :=
  match f.related with
  | r :: _ => if truthyS r.ref then jstr r.ref ++ "/" ++ r.refId else f.hash
  | [] => f.hash

/-- Truthiness of `file.related && file.related.length > 0 && file.related[0].ref`. -/
def relatedActive (f : FileDesc) : Bool :=
  match f.related with
  | r :: _ => truthyS r.ref
  | [] => false

/-- The `<ref>/<refId>` folder used by `upload` when the related reference is active. -/
def relatedFolder (f : FileDesc) : String :=
  match f.related with
  | r :: _ => jstr r.ref ++ "/" ++ r.refId
  | [] => ""

/-- `upload`'s `filePath`: `file.path ? file.path + "/" : backupPath + "/"`
(src/lib/index.js line 126). -/
def uploadFilePath (f : FileDesc) : String :=
  if truthyS f.path then jstr f.path ++ "/" else backupPath f ++ "/"

/-- `fileName = slugify(path.basename(file.name, file.ext)) + file.ext.toLowerCase()`
(src/lib/index.js lines 127-129 and 188-190; identical in `upload` and `delete`). -/
def fileNameOf (f : FileDesc) : String :=
  slugify (jsBasename f.name f.ext) ++ lowerStr f.ext

/-- The object key written by `upload`. -/
def uploadKey (f : FileDesc) : String :=
  uploadFilePath f ++ fileNameOf f

/-- `delete`'s `filePath`: `file.path ? file.path + "/" : file.hash + "/"`
(src/lib/index.js line 187); unlike `upload` it never consults `file.related`. -/
def deleteFilePath (f : FileDesc) : String :=
  if truthyS f.path then jstr f.path ++ "/" else f.hash ++ "/"

/-- The object key targeted by `delete`. -/
def deleteKey (f : FileDesc) : String :=
  deleteFilePath f ++ fileNameOf f

/-- Modelled from the spec's words (for the refinement claim C6): the folder
part of the key is the explicit path if present, else `<relatedRef>/<relatedRefId>`
if a non-empty related reference exists, else the file's content hash.
Presence follows the code's JavaScript truthiness (an empty string counts as
absent). -/
def specFolder (f : FileDesc) : String :=
  if truthyS f.path then jstr f.path
  else
    match f.related with
    | r :: _ => if truthyS r.ref then jstr r.ref ++ "/" ++ r.refId else f.hash
    | [] => f.hash

/-- Modelled from the spec's words (for the refinement claim C6): the key is
`<folder>/<slug(basename)><lowercased ext>`. -/
def specUploadKey (f : FileDesc) : String :=
  specFolder f ++ "/" ++ (slugify (jsBasename f.name f.ext) ++ lowerStr f.ext)

/-- The parsed Service Account JSON: only the three fields tested by the
source, each optional because `JSON.parse` may produce an object lacking them. -/
structure SA where
  project_id : Option String
  client_email : Option String
  private_key : Option String
deriving DecidableEq, Repr

/-- '"Service Account JSON" is required!' (src/lib/index.js line 15). -/
def saRequiredMsg : String := "\"Service Account JSON\" is required!"

/-- '"Multi-Regional Bucket name" is required!' (src/lib/index.js line 18). -/
def bucketRequiredMsg : String := "\"Multi-Regional Bucket name\" is required!"

/-- The field-specific message thrown inside the `try` block
(src/lib/index.js lines 26-39). -/
def missingFieldMsg (field : String) : String :=
  "Error parsing data \"Service Account JSON\". Missing \"" ++ field ++
    "\" field in JSON file."

/-- The message thrown by the `catch` block (src/lib/index.js lines 42-44). -/
def jsonParseMsg : String :=
  "Error parsing data \"Service Account JSON\", please be sure to copy/paste the full JSON file."

/-- The body of the `try` block of `checkServiceAccount`: parse the JSON
(`parse` models `JSON.parse`; `none` is a parse exception) and throw a
field-specific error on any missing field (src/lib/index.js lines 20-40). -/
def parseAndCheck (parse : String → Option SA) (s : String) : Except String SA :=
  match parse s with
  | none => Except.error "SyntaxError: Unexpected token"
  | some sa =>
    if truthyS sa.project_id = false then Except.error (missingFieldMsg "project_id")
    else if truthyS sa.client_email = false then Except.error (missingFieldMsg "client_email")
    else if truthyS sa.private_key = false then Except.error (missingFieldMsg "private_key")
    else Except.ok sa

/-- `checkServiceAccount` (src/lib/index.js lines 13-46): the two required-field
checks run first; the whole parse-and-check runs inside `try { ... } catch (e)`
whose `catch` throws the generic parse message, so every error thrown inside
the `try` (including the field-specific ones) is replaced by the generic one. -/
def checkServiceAccount (parse : String → Option SA) (config : Config) : Except String SA :=
  if truthyS config.serviceAccount = false then Except.error saRequiredMsg
  else if truthyS config.bucketName = false then Except.error bucketRequiredMsg
  else
    match parseAndCheck parse (config.serviceAccount.getD "") with
    | Except.ok sa => Except.ok sa
    | Except.error _ => Except.error jsonParseMsg

/-- The only effect `init` performs besides validation: constructing the
storage client (`new Storage(...)`, src/lib/index.js lines 111-117); the
constructor itself makes no network call. -/
inductive InitStep
  | storageClientConstructed
deriving DecidableEq, Repr

/-- `init` (src/lib/index.js lines 109-117): validates first and only then
constructs the storage client; a validation error propagates synchronously
before anything else happens. -/
def init (parse : String → Option SA) (config : Config) :
    Except String (SA × List InitStep) :=
  match checkServiceAccount parse config with
  | Except.error e => Except.error e
  | Except.ok sa => Except.ok (sa, [InitStep.storageClientConstructed])

/-- The steps performed by `init`: none when validation throws. -/
def initSteps (parse : String → Option SA) (config : Config) : List InitStep :=
  match init parse config with
  | Except.error _ => []
  | Except.ok (_, l) => l

/-- The remote calls issued by the provider against the storage SDK. -/
inductive NetOp
  | bucketExists (bucket : String)
  | createBucket (bucket : String)
  | fileExists (key : String)
  | fileDelete (key : String)
  | fileSave (key : String) (contentType : String)
deriving DecidableEq, Repr

/-- Settlement result of a remote call, chosen by the environment: `ok b`
fulfills (with `b` carrying the boolean payload of the two `exists` calls;
it is irrelevant for the other calls) and `fail code` rejects with an error
whose `code` field is `code`. -/
inductive Res
  | ok (b : Bool)
  | fail (code : Nat)
deriving DecidableEq, Repr

/-- A JavaScript error value: either a storage error with a numeric `code`,
or `new Error(message)`. -/
inductive JErr
  | codeErr (code : Nat)
  | msgErr (msg : String)
deriving DecidableEq, Repr

/-- Settlement of the promise returned to the host. -/
inductive Settle
  | fulfilled
  | rejected (e : JErr)
deriving DecidableEq, Repr

/-- Synchronous actions: logging, mutating `file.url`, and calling the
executor's `resolve`/`reject`. -/
inductive Act
  | log (s : String)
  | setUrl (u : String)
  | resolveMain
  | rejectMain (e : JErr)
deriving DecidableEq, Repr

/-- Trace events: issuing and completion of remote calls, log lines, and the
`resolve`/`reject` calls (recorded even when they have no effect because the
promise is already settled). -/
inductive Ev
  | issue (op : NetOp)
  | complete (op : NetOp) (r : Res)
  | log (s : String)
  | resolveCalled
  | rejectCalled (e : JErr)
deriving DecidableEq, Repr

/-- Deep embedding of the provider's promise code.  `sync a k` performs a
synchronous action; `callNet op k` issues a remote call whose handler `k`
runs only once the call completes (the rest of the chain is `await`-style
sequenced on it); `callNetFF op k rest` issues a remote call whose handler is
attached but NOT awaited — the code continues synchronously with `rest`
(this is exactly a `.then` callback that starts a promise chain without
returning it). -/
inductive Prog
  | done
  | sync (a : Act) (k : Prog)
  | callNet (op : NetOp) (k : Res → Prog)
  | callNetFF (op : NetOp) (k : Res → Prog) (rest : Prog)

/-- Whether the SDK's `createBucket` invocation throws synchronously
(`throwsSync`, the only case the source's `try/catch` can intercept) or
returns a promise (`returnsPromise`, the normal behaviour of the network
call). -/
inductive CreateMode
  | returnsPromise
  | throwsSync
deriving DecidableEq, Repr

/-- Environment: the result each remote call completes with. -/
structure Env where
  bucketExists : Res
  createBucket : Res
  fileExists : Res
  fileDelete : Res
  fileSave : Res
deriving DecidableEq, Repr

/-- The environment's result for a given call. -/
def resOf (env : Env) : NetOp → Res
  | NetOp.bucketExists _ => env.bucketExists
  | NetOp.createBucket _ => env.createBucket
  | NetOp.fileExists _ => env.fileExists
  | NetOp.fileDelete _ => env.fileDelete
  | NetOp.fileSave _ _ => env.fileSave

/-- Machine state: outstanding remote calls with their handlers, the event
trace, the settlement of the promise handed to the host (first
`resolve`/`reject` wins), and the `file.url` mutation. -/
structure St where
  pending : List (NetOp × (Res → Prog))
  trace : List Ev
  settled : Option Settle
  url : Option String

/-- The empty initial state. -/
def st0 : St := ⟨[], [], none, none⟩

/-- Effect of one synchronous action; `resolve`/`reject` settle the promise
only if it is not yet settled (JavaScript promises settle once). -/
def applyAct (a : Act) (st : St) : St :=
  match a with
  | Act.log s => { st with trace := st.trace ++ [Ev.log s] }
  | Act.setUrl u => { st with url := some u }
  | Act.resolveMain =>
    { st with trace := st.trace ++ [Ev.resolveCalled],
              settled := match st.settled with
                         | none => some Settle.fulfilled
                         | some s => some s }
  | Act.rejectMain e =>
    { st with trace := st.trace ++ [Ev.rejectCalled e],
              settled := match st.settled with
                         | none => some (Settle.rejected e)
                         | some s => some s }

/-- Run one task (a maximal stretch of synchronous code) to completion:
remote-call handlers are parked in `pending`; they never run inside the task
that issued them. -/
def runTask : Prog → St → St
  | Prog.done, st => st
  | Prog.sync a k, st => runTask k (applyAct a st)
  | Prog.callNet op k, st =>
    { st with trace := st.trace ++ [Ev.issue op], pending := st.pending ++ [(op, k)] }
  | Prog.callNetFF op k rest, st =>
    runTask rest
      { st with trace := st.trace ++ [Ev.issue op], pending := st.pending ++ [(op, k)] }

/-- Run a schedule: each entry picks the index of the outstanding remote call
that completes next (out-of-range entries complete nothing); the call's
handler then runs as a new task.  Quantifying over schedules quantifies over
all network-completion orders. -/
def runSched (env : Env) : List Nat → St → St
  | [], st => st
  | i :: rest, st =>
    match st.pending.get? i with
    | none => runSched env rest st
    | some (op, k) =>
      runSched env rest
        (runTask (k (resOf env op))
          { st with pending := st.pending.eraseIdx i,
                    trace := st.trace ++ [Ev.complete op (resOf env op)] })

/-- Run a program: the synchronous prefix, then the scheduled completions. -/
def runProg (p : Prog) (env : Env) (sched : List Nat) : St :=
  runSched env sched (runTask p st0)

/-- The message of the error built in `checkBucket`'s `catch` block
(src/lib/index.js lines 67-71). -/
def bucketErrorMsg (bucketName : String) : String :=
  "An error occurs when we try to create the Bucket \"" ++ bucketName ++
    "\". Please try again on Google Cloud Platform directly."

/-- `checkBucket` (src/lib/index.js lines 55-75), with continuations for the
resolution/rejection of the promise it returns: awaits `bucket.exists()`;
when the bucket is absent it invokes `createBucket` inside `try { ... }
catch`, but only attaches a `.then` success logger to the returned promise —
the promise is neither awaited nor given a rejection handler, so the `catch`
fires only if the invocation throws synchronously (`CreateMode.throwsSync`),
in which case the caught exception is replaced by the bucket error; in the
promise case `checkBucket` resolves immediately and a later `createBucket`
rejection is dropped. -/
def checkBucketP (bucketName : String) (cm : CreateMode)
    (onResolve : Prog) (onReject : JErr → Prog) : Prog :=
  Prog.callNet (NetOp.bucketExists bucketName)
    (fun r =>
      match r with
      | Res.ok true => onResolve
      | Res.ok false =>
        match cm with
        | CreateMode.throwsSync => onReject (JErr.msgErr (bucketErrorMsg bucketName))
        | CreateMode.returnsPromise =>
          Prog.callNetFF (NetOp.createBucket bucketName)
            (fun cr =>
              match cr with
              | Res.ok _ =>
                Prog.sync (Act.log ("Bucket " ++ bucketName ++ " successfully created."))
                  Prog.done
              | Res.fail _ => Prog.done)
            onResolve
      | Res.fail c => onReject (JErr.codeErr c))

/-- A caller that awaits `checkBucket`'s promise, observing its settlement. -/
def checkBucketMain (bucketName : String) (cm : CreateMode) : Prog :=
  checkBucketP bucketName cm
    (Prog.sync Act.resolveMain Prog.done)
    (fun e => Prog.sync (Act.rejectMain e) Prog.done)

/-- The `\x7bbucket-name\x7d` placeholder of the `baseUrl` templates. -/
def bnPat : String := "\x7bbucket-name\x7d"

/-- The URL assigned to `file.url` on write success (src/lib/index.js lines
172-175): `config.baseUrl.replace(/{bucket-name}/, config.bucketName)`
followed by `/` and the object key. -/
def uploadUrl (cfg : Config) (key : String) : String :=
  replaceFirst cfg.baseUrl bnPat (cfg.bucketName.getD "") ++ "/" ++ key

/-- `upload` (src/lib/index.js lines 120-183): computes the key, awaits
`checkBucket`, then runs `.then(cbA).then(cbB)` where `cbA` starts — without
returning it — the exists/pre-delete chain (`callNetFF`), and `cbB` (which
runs as soon as `cbA` returns) issues the `save`; on save success it sets
`file.url`, logs and resolves, on save failure it rejects; a rejection of
`checkBucket` skips both callbacks and settles nothing. -/
def uploadP (cfg : Config) (file : FileDesc) (cm : CreateMode) : Prog :=
  let key := uploadKey file
  checkBucketP (cfg.bucketName.getD "") cm
    (Prog.callNetFF (NetOp.fileExists key)
      (fun er =>
        match er with
        | Res.ok true =>
          Prog.sync (Act.log "File already exist, try to remove it.")
            (Prog.callNet (NetOp.fileDelete key)
              (fun dr =>
                match dr with
                | Res.ok _ =>
                  Prog.sync (Act.log "File has been removed with success.") Prog.done
                | Res.fail c =>
                  if c = 404 then
                    Prog.sync
                      (Act.log "Remote file was not found, you may have to delete manually.")
                      Prog.done
                  else Prog.done))
        | Res.ok false => Prog.done
        | Res.fail _ => Prog.done)
      (Prog.callNet (NetOp.fileSave key file.mime)
        (fun sr =>
          match sr with
          | Res.ok _ =>
            Prog.sync (Act.setUrl (uploadUrl cfg key))
              (Prog.sync (Act.log ("File successfully uploaded to " ++ uploadUrl cfg key))
                (Prog.sync Act.resolveMain Prog.done))
          | Res.fail c => Prog.sync (Act.rejectMain (JErr.codeErr c)) Prog.done)))
    (fun _ => Prog.done)

/-- `delete` (src/lib/index.js lines 185-207): computes the key, issues the
storage delete with only a `.catch` handler attached (fire-and-forget: 404 is
logged as a warning, any other error calls `reject`), and then — still
synchronously, without waiting for the delete to settle — logs success and
calls `resolve`. -/
def deleteP (cfg : Config) (file : FileDesc) : Prog :=
  let key := deleteKey file
  Prog.callNetFF (NetOp.fileDelete key)
    (fun dr =>
      match dr with
      | Res.ok _ => Prog.done
      | Res.fail c =>
        if c = 404 then
          Prog.sync
            (Act.log "Remote file was not found, you may have to delete manually.")
            Prog.done
        else Prog.sync (Act.rejectMain (JErr.codeErr c)) Prog.done)
    (Prog.sync (Act.log ("File " ++ jstr file.url ++ " successfully deleted"))
      (Prog.sync Act.resolveMain Prog.done))

/-- First index of an event satisfying `p` in a trace. -/
def firstIdxFrom (p : Ev → Bool) : List Ev → Option Nat
  | [] => none
  | e :: es => if p e then some 0 else (firstIdxFrom p es).map (· + 1)

/-- `evBefore p q tr`: both kinds of event occur in `tr` and the first
`p`-event strictly precedes the first `q`-event. -/
def evBefore (p q : Ev → Bool) (tr : List Ev) : Bool :=
  match firstIdxFrom p tr, firstIdxFrom q tr with
  | some i, some j => Nat.blt i j
  | _, _ => false

/-- Event selectors used in the claims. -/
def isIssueSave : Ev → Bool
  | Ev.issue (NetOp.fileSave _ _) => true
  | _ => false

/-- Selects the issuing of the object pre-delete/delete call. -/
def isIssueDelete : Ev → Bool
  | Ev.issue (NetOp.fileDelete _) => true
  | _ => false

/-- Selects the completion of the object delete call. -/
def isCompleteDelete : Ev → Bool
  | Ev.complete (NetOp.fileDelete _) _ => true
  | _ => false

/-- Selects an executor `reject` call. -/
def isRejectCalled : Ev → Bool
  | Ev.rejectCalled _ => true
  | _ => false

/-- Selects the issuing of a bucket-creation call. -/
def isCreateIssue : Ev → Bool
  | Ev.issue (NetOp.createBucket _) => true
  | _ => false

/-- The configuration of the spec's upload scenario. -/
def cfg0 : Config :=
  ⟨some "sa-json", some "my-bucket", some "us",
   "https://storage.googleapis.com/\x7bbucket-name\x7d"⟩

/-- The file of the spec's upload scenario. -/
def file0 : FileDesc :=
  ⟨"Photo.JPG", ".jpg", some "uploads", "h1", [], "image/jpeg", none⟩

/-- Environment: bucket exists, no object at the key, every call succeeds. -/
def envFresh : Env := ⟨Res.ok true, Res.ok true, Res.ok false, Res.ok true, Res.ok true⟩

/-- Environment: bucket exists, an object already exists at the key, every
call succeeds. -/
def envExisting : Env := ⟨Res.ok true, Res.ok true, Res.ok true, Res.ok true, Res.ok true⟩

/-- Environment: object exists at the key but its delete fails with 404. -/
def env404 : Env := ⟨Res.ok true, Res.ok true, Res.ok true, Res.fail 404, Res.ok true⟩

/-- Environment: the storage delete fails with the non-404 code 500. -/
def env500 : Env := ⟨Res.ok true, Res.ok true, Res.ok true, Res.fail 500, Res.ok true⟩

/-- Environment: the bucket does not exist and `createBucket`'s promise
rejects with code 403. -/
def envC5 : Env := ⟨Res.ok false, Res.fail 403, Res.ok true, Res.ok true, Res.ok true⟩

/-- The C1 scenario run: fresh upload, all calls succeed, completions in
issue order. -/
def c1run : St :=
  runProg (uploadP cfg0 file0 CreateMode.returnsPromise) envFresh [0, 0, 0]

/-- The C3 counterexample run: an object already exists at the key. -/
def c3run : St :=
  runProg (uploadP cfg0 file0 CreateMode.returnsPromise) envExisting [0, 0, 0, 0]

/-- The C3 amended-claim run: the pre-delete fails with 404. -/
def c3run404 : St :=
  runProg (uploadP cfg0 file0 CreateMode.returnsPromise) env404 [0, 0, 0, 0]

/-- The C2 counterexample run: `delete` whose storage delete fails with 500. -/
def c2run : St := runProg (deleteP cfg0 file0) env500 [0]

/-- The C5 run: awaiting `checkBucket` while bucket creation fails
asynchronously. -/
def c5run : St :=
  runProg (checkBucketMain "my-bucket" CreateMode.returnsPromise) envC5 [0, 0]

/-- The C5 contrast run: `createBucket` throwing synchronously, the only case
the source's `try/catch` intercepts. -/
def c5runSync : St :=
  runProg (checkBucketMain "my-bucket" CreateMode.throwsSync) envC5 [0]

/-- A parsed service-account JSON lacking `project_id`. -/
def saMissingProject : SA := ⟨none, some "a@b.c", some "key"⟩

/-- The JSON text behind `saMissingProject`. -/
def saJson1 : String :=
  "\x7b \"client_email\": \"a@b.c\", \"private_key\": \"key\" \x7d"

/-- A `JSON.parse` model that parses `saJson1` successfully (to an object
with no `project_id`) and throws on everything else. -/
def parse1 : String → Option SA :=
  fun s => if s = saJson1 then some saMissingProject else none

/-- Configuration whose service account parses but lacks `project_id`. -/
def cfgC4 : Config := ⟨some saJson1, some "my-bucket", some "us", ""⟩

/-- A `JSON.parse` model that always throws (never needed for C8). -/
def parseNone : String → Option SA := fun _ => none

/-- A configuration with no `serviceAccount`. -/
def cfgMissingSA : Config := ⟨none, some "b", none, ""⟩

/-- C7 counterexample file: keyed by its related reference on upload, and
whose hash happens to equal `<ref>/<refId>`. -/
def fileC7 : FileDesc := ⟨"a.png", ".png", none, "r/i", [⟨some "r", "i"⟩], "", none⟩

/-- C7 witness file: keyed by its related reference on upload, hash distinct
from `<ref>/<refId>`. -/
def fileC7w : FileDesc := ⟨"a.png", ".png", none, "h0", [⟨some "r", "i"⟩], "", none⟩

/-- Trace is free of a given kind of event. -/
def CleanTr (tr : List Ev) : Prop := ∀ ev ∈ tr, isCreateIssue ev = false

/-- A task (and, recursively, every handler it can install, evaluated at the
result the environment will supply) never issues a bucket-creation call. -/
def TaskNoCreate (env : Env) : Prog → Prop
  | Prog.done => True
  | Prog.sync _ k => TaskNoCreate env k
  | Prog.callNet op k =>
    isCreateIssue (Ev.issue op) = false ∧ TaskNoCreate env (k (resOf env op))
  | Prog.callNetFF op k rest =>
    isCreateIssue (Ev.issue op) = false ∧ TaskNoCreate env (k (resOf env op)) ∧
      TaskNoCreate env rest

/-- A parked handler that never issues a bucket-creation call. -/
def PendOK (env : Env) (pr : NetOp × (Res → Prog)) : Prop :=
  TaskNoCreate env (pr.2 (resOf env pr.1))

/-- Invariant: trace free of creation issues and all parked handlers benign. -/
def CleanSt (env : Env) (st : St) : Prop :=
  CleanTr st.trace ∧ ∀ pr ∈ st.pending, PendOK env pr

theorem cleanTr_snoc (t : List Ev) (e : Ev) (h : CleanTr t)
    (he : isCreateIssue e = false) : CleanTr (t ++ [e]) := by
  intro ev hev
  rcases List.mem_append.mp hev with h1 | h1
  · exact h ev h1
  · rcases List.mem_singleton.mp h1 with rfl
    exact he

theorem clean_applyAct (env : Env) (a : Act) (st : St) (h : CleanSt env st) :
    CleanSt env (applyAct a st) := by
  obtain ⟨ht, hp⟩ := h
  cases a with
  | log s => exact ⟨cleanTr_snoc _ _ ht rfl, hp⟩
  | setUrl u => exact ⟨ht, hp⟩
  | resolveMain => exact ⟨cleanTr_snoc _ _ ht rfl, hp⟩
  | rejectMain e => exact ⟨cleanTr_snoc _ _ ht rfl, hp⟩

theorem clean_runTask (env : Env) :
    ∀ (p : Prog) (st : St), TaskNoCreate env p → CleanSt env st →
      CleanSt env (runTask p st) := by
  intro p
  induction p with
  | done => intro st _ h; exact h
  | sync a k ih =>
    intro st hT hC
    exact ih (applyAct a st) hT (clean_applyAct env a st hC)
  | callNet op k =>
    intro st hT hC
    refine ⟨cleanTr_snoc _ _ hC.1 hT.1, ?_⟩
    intro pr hpr
    rcases List.mem_append.mp hpr with h1 | h1
    · exact hC.2 pr h1
    · rcases List.mem_singleton.mp h1 with rfl
      exact hT.2
  | callNetFF op k rest ihk ihrest =>
    intro st hT hC
    apply ihrest
    · exact hT.2.2
    · refine ⟨cleanTr_snoc _ _ hC.1 hT.1, ?_⟩
      intro pr hpr
      rcases List.mem_append.mp hpr with h1 | h1
      · exact hC.2 pr h1
      · rcases List.mem_singleton.mp h1 with rfl
        exact hT.2.1

theorem clean_runSched (env : Env) :
    ∀ (sched : List Nat) (st : St), CleanSt env st →
      CleanSt env (runSched env sched st) := by
  intro sched
  induction sched with
  | nil => intro st h; exact h
  | cons i rest ih =>
    intro st hC
    simp only [runSched]
    cases hg : st.pending.get? i with
    | none => exact ih st hC
    | some pr =>
      obtain ⟨op, k⟩ := pr
      apply ih
      apply clean_runTask env _ _ (hC.2 (op, k) (List.get?_mem hg))
      refine ⟨cleanTr_snoc _ _ hC.1 rfl, ?_⟩
      intro q hq
      exact hC.2 q ((List.eraseIdx_sublist st.pending i).subset hq)

theorem settled_applyAct (a : Act) (st : St) (s : Settle)
    (h : st.settled = some s) : (applyAct a st).settled = some s := by
  cases a <;> simp [applyAct, h]

theorem settled_runTask :
    ∀ (p : Prog) (st : St) (s : Settle), st.settled = some s →
      (runTask p st).settled = some s := by
  intro p
  induction p with
  | done => intro st s h; exact h
  | sync a k ih => intro st s h; exact ih (applyAct a st) s (settled_applyAct a st s h)
  | callNet op k => intro st s h; simpa [runTask] using h
  | callNetFF op k rest ihk ihrest => intro st s h; exact ihrest _ s (by simpa [runTask] using h)

theorem settled_runSched (env : Env) :
    ∀ (sched : List Nat) (st : St) (s : Settle), st.settled = some s →
      (runSched env sched st).settled = some s := by
  intro sched
  induction sched with
  | nil => intro st s h; exact h
  | cons i rest ih =>
    intro st s h
    simp only [runSched]
    cases hg : st.pending.get? i with
    | none => exact ih st s h
    | some pr =>
      obtain ⟨op, k⟩ := pr
      exact ih _ s (settled_runTask _ _ s (by simpa using h))

theorem strAppendRightCancel (a b n : String) (h : a ++ n = b ++ n) : a = b := by
  obtain ⟨la⟩ := a
  obtain ⟨lb⟩ := b
  obtain ⟨ln⟩ := n
  have h2 : la ++ ln = lb ++ ln := congrArg String.data h
  exact congrArg String.mk (List.append_cancel_right h2)


/-- C1 counterexample: for the spec's upload scenario (`file0` with
`baseUrl = "https://storage.googleapis.com/\x7bbucket-name\x7d"` and
`bucketName = "my-bucket"`), the computed object key is NOT
`uploads/photo.jpg` and, although the write succeeds, `file.url` is NOT
`https://storage.googleapis.com/my-bucket/uploads/photo.jpg`:
`path.basename("Photo.JPG", ".jpg")` strips nothing (case-sensitive suffix)
and `slugify` does not lowercase. -/
theorem c1_counterexample :
    uploadKey file0 ≠ "uploads/photo.jpg" ∧
      c1run.settled = some Settle.fulfilled ∧
      c1run.url ≠ some "https://storage.googleapis.com/my-bucket/uploads/photo.jpg" := by
  refine ⟨by decide, by decide, by decide⟩

/-- C1 amended: for the spec's upload scenario the computed object key is
`uploads/Photo.JPG.jpg` and, on write success, `file.url` is set to
`https://storage.googleapis.com/my-bucket/uploads/Photo.JPG.jpg`. -/
theorem c1_amended :
    uploadKey file0 = "uploads/Photo.JPG.jpg" ∧
      c1run.settled = some Settle.fulfilled ∧
      c1run.url = some "https://storage.googleapis.com/my-bucket/uploads/Photo.JPG.jpg" := by
  refine ⟨by decide, by decide, by decide⟩

/-- C2 counterexample: a `delete` call whose underlying storage delete fails
with code 500 (not 404) still FULFILLS its promise: `resolve()` is called
synchronously in the executor before the delete settles, so the later
`reject(error)` call (recorded in the trace) has no effect. -/
theorem c2_counterexample :
    c2run.settled = some Settle.fulfilled ∧
      c2run.settled ≠ some (Settle.rejected (JErr.codeErr 500)) ∧
      Ev.complete (NetOp.fileDelete (deleteKey file0)) (Res.fail 500) ∈ c2run.trace ∧
      Ev.rejectCalled (JErr.codeErr 500) ∈ c2run.trace := by
  refine ⟨by decide, by decide, by decide, by decide⟩

/-- C2 amended: for every `delete` call, whatever the environment does and in
whatever order completions occur, the returned promise fulfills — the
executor calls `resolve()` synchronously, so a non-404 storage failure makes
the handler call `reject(error)` on an already-settled promise, which does
nothing. -/
theorem c2_amended (cfg : Config) (file : FileDesc) (env : Env) (sched : List Nat) :
    (runProg (deleteP cfg file) env sched).settled = some Settle.fulfilled := by
  have h1 : (runTask (deleteP cfg file) st0).settled = some Settle.fulfilled := rfl
  exact settled_runSched env sched _ _ h1

/-- C3 counterexample: in a legal execution of `upload` over an existing
object at the key (the exists check answers true and the pre-delete is
issued and completes), the pre-existing object's deletion does NOT complete
before the new write is issued — the save is issued in the second `.then`
callback, which does not wait for the unreturned exists/delete chain. -/
theorem c3_counterexample :
    evBefore isCompleteDelete isIssueSave c3run.trace = false ∧
      c3run.trace.any isCompleteDelete = true ∧
      c3run.trace.any isIssueSave = true ∧
      c3run.settled = some Settle.fulfilled := by
  refine ⟨by decide, by decide, by decide, by decide⟩

/-- C3 amended: the pre-delete is fire-and-forget: the write is issued
without waiting for the pre-delete (in the canonical execution the save is
issued before the pre-delete is even issued), and a 404 on the pre-delete
does not abort the upload — the upload still fulfills and sets `file.url`. -/
theorem c3_amended :
    evBefore isIssueSave isIssueDelete c3run404.trace = true ∧
      Ev.complete (NetOp.fileDelete (uploadKey file0)) (Res.fail 404) ∈ c3run404.trace ∧
      c3run404.settled = some Settle.fulfilled ∧
      c3run404.url = some "https://storage.googleapis.com/my-bucket/uploads/Photo.JPG.jpg" := by
  refine ⟨by decide, by decide, by decide, by decide⟩

/-- C4: code bug. For a `serviceAccount` that parses as JSON but lacks
`project_id`, `checkServiceAccount` throws the GENERIC parse error — the
field-specific `Missing "project_id"` message (which the source does build)
is thrown inside the `try` block and therefore swallowed by its own `catch`,
which replaces it with a message that names no field. -/
theorem c4_code_behavior :
    parse1 saJson1 = some saMissingProject ∧
      truthyS saMissingProject.project_id = false ∧
      checkServiceAccount parse1 cfgC4 = Except.error jsonParseMsg ∧
      strContains jsonParseMsg "project_id" = false ∧
      jsonParseMsg ≠ missingFieldMsg "project_id" := by
  refine ⟨by decide, by decide, rfl, by decide, by decide⟩

/-- C5: code bug. When the bucket does not exist and the `createBucket`
promise rejects (code 403), `checkBucket`'s promise FULFILLS and no bucket
error is surfaced: the `try/catch` can only intercept a synchronous throw of
the `createBucket` invocation (contrast run: in that mode the promise does
reject with the bucket error naming the bucket), while the returned promise
is neither awaited nor given a rejection handler. -/
theorem c5_code_behavior :
    c5run.settled = some Settle.fulfilled ∧
      Ev.complete (NetOp.createBucket "my-bucket") (Res.fail 403) ∈ c5run.trace ∧
      c5run.trace.any isRejectCalled = false ∧
      c5runSync.settled =
        some (Settle.rejected (JErr.msgErr (bucketErrorMsg "my-bucket"))) := by
  refine ⟨by decide, by decide, by decide, by decide⟩

/-- C6: for every uploaded file, the object key equals the spec's
description: `<folder>/<slug(basename)><lowercased ext>` with folder = the
explicit path if present, else `<relatedRef>/<relatedRefId>` if a non-empty
related reference exists, else the file's hash. -/
theorem c6_key_refinement (f : FileDesc) : uploadKey f = specUploadKey f := by
  cases hr : f.related with
  | nil =>
    cases hp : truthyS f.path <;>
      simp [uploadKey, specUploadKey, uploadFilePath, specFolder, backupPath, fileNameOf,
        hp, hr, String.append_assoc]
  | cons r rs =>
    cases hp : truthyS f.path <;> cases href : truthyS r.ref <;>
      simp [uploadKey, specUploadKey, uploadFilePath, specFolder, backupPath, fileNameOf,
        hp, hr, href, String.append_assoc]

/-- C7 counterexample: the claim's "delete computes a different key than
upload did" fails for a related-keyed file whose hash happens to equal
`<ref>/<refId>`: for `fileC7` (no path, related ref `r`/`i`, hash `r/i`),
upload keys by the related folder, yet delete computes the SAME key. -/
theorem c7_counterexample :
    relatedActive fileC7 = true ∧
      truthyS fileC7.path = false ∧
      uploadKey fileC7 = relatedFolder fileC7 ++ "/" ++ fileNameOf fileC7 ∧
      deleteKey fileC7 = uploadKey fileC7 := by
  refine ⟨by decide, by decide, by decide, by decide⟩

/-- C7 amended: delete's key derivation uses only the explicit path or,
absent that, the hash — never the related-reference rule — so for every file
keyed from a related reference on upload, delete computes `hash/<name>` and
this differs from upload's key whenever the file's hash differs from
`<ref>/<refId>`. -/
theorem c7_amended (f : FileDesc)
    (h1 : truthyS f.path = false) (h2 : relatedActive f = true)
    (h3 : f.hash ≠ relatedFolder f) :
    deleteKey f = (f.hash ++ "/") ++ fileNameOf f ∧ deleteKey f ≠ uploadKey f := by
  cases hr : f.related with
  | nil => simp [relatedActive, hr] at h2
  | cons r rs =>
    have href : truthyS r.ref = true := by simpa [relatedActive, hr] using h2
    have e0 : deleteKey f = (f.hash ++ "/") ++ fileNameOf f := by
      simp [deleteKey, deleteFilePath, h1]
    have e1 : uploadKey f = ((jstr r.ref ++ "/" ++ r.refId) ++ "/") ++ fileNameOf f := by
      simp [uploadKey, uploadFilePath, backupPath, h1, hr, href]
    refine ⟨e0, ?_⟩
    intro heq
    rw [e0, e1] at heq
    have e2 := strAppendRightCancel _ _ _ heq
    have e3 := strAppendRightCancel _ _ _ e2
    apply h3
    rw [e3]
    simp [relatedFolder, hr]

/-- C7 witness: the amended statement at a concrete related-keyed file with
hash `h0 ≠ r/i`. -/
theorem c7_witness :
    deleteKey fileC7w = (fileC7w.hash ++ "/") ++ fileNameOf fileC7w ∧
      deleteKey fileC7w ≠ uploadKey fileC7w :=
  c7_amended fileC7w rfl rfl (by decide)

/-- C8: for every configuration in which `serviceAccount` or `bucketName`
is absent (falsy), `init`'s validation throws one of the two required-field
configuration errors synchronously, and no storage client is constructed
(and hence no network call can have been made). -/
theorem c8_config_error (parse : String → Option SA) (cfg : Config)
    (h : truthyS cfg.serviceAccount = false ∨ truthyS cfg.bucketName = false) :
    (init parse cfg = Except.error saRequiredMsg ∨
        init parse cfg = Except.error bucketRequiredMsg) ∧
      initSteps parse cfg = [] := by
  by_cases hsa : truthyS cfg.serviceAccount = false
  · exact ⟨Or.inl (by simp [init, checkServiceAccount, hsa]),
      by simp [initSteps, init, checkServiceAccount, hsa]⟩
  · have hbn : truthyS cfg.bucketName = false := by tauto
    exact ⟨Or.inr (by simp [init, checkServiceAccount, hsa, hbn]),
      by simp [initSteps, init, checkServiceAccount, hsa, hbn]⟩

/-- C8 witness: the theorem at a configuration with no `serviceAccount`. -/
theorem c8_witness :
    (init parseNone cfgMissingSA = Except.error saRequiredMsg ∨
        init parseNone cfgMissingSA = Except.error bucketRequiredMsg) ∧
      initSteps parseNone cfgMissingSA = [] :=
  c8_config_error parseNone cfgMissingSA (Or.inl rfl)

/-- C9: `checkBucket` is idempotent in the claimed sense: whenever the
bucket-existence check answers true (the bucket already exists), no
execution — whatever the environment's other answers and whatever order
completions occur in — issues a bucket-creation call. -/
theorem c9_no_create (bucketName : String) (cm : CreateMode) (env : Env)
    (sched : List Nat) (h : env.bucketExists = Res.ok true) :
    (runProg (checkBucketMain bucketName cm) env sched).trace.all
      (fun ev => !(isCreateIssue ev)) = true := by
  have h0 : CleanSt env st0 :=
    ⟨fun ev hev => absurd hev (List.not_mem_nil ev), fun pr hpr => absurd hpr (List.not_mem_nil pr)⟩
  have hT : TaskNoCreate env (checkBucketMain bucketName cm) := by
    simp only [checkBucketMain, checkBucketP, TaskNoCreate, resOf, h]
    exact ⟨rfl, trivial⟩
  have hclean :=
    clean_runSched env sched _ (clean_runTask env _ st0 hT h0)
  rw [List.all_eq_true]
  intro ev hev
  have := hclean.1 ev hev
  simp [this]

/-- C9 witness: the theorem at a concrete environment whose bucket exists. -/
theorem c9_witness :
    (runProg (checkBucketMain "my-bucket" CreateMode.returnsPromise) envExisting [0]).trace.all
      (fun ev => !(isCreateIssue ev)) = true :=
  c9_no_create "my-bucket" CreateMode.returnsPromise envExisting [0] rfl

/-- C10: for every file with an explicit (truthy) path, or with no active
related reference (hash fallback), upload and delete derive the identical
object key. -/
theorem c10_same_key (f : FileDesc)
    (h : truthyS f.path = true ∨ relatedActive f = false) :
    uploadKey f = deleteKey f := by
  rcases h with h | h
  · simp [uploadKey, deleteKey, uploadFilePath, deleteFilePath, h]
  · have hb : backupPath f = f.hash := by
      cases hr : f.related with
      | nil => simp [backupPath, hr]
      | cons r rs =>
        have href : truthyS r.ref = false := by simpa [relatedActive, hr] using h
        simp [backupPath, hr, href]
    cases hp : truthyS f.path with
    | true => simp [uploadKey, deleteKey, uploadFilePath, deleteFilePath, hp]
    | false => simp [uploadKey, deleteKey, uploadFilePath, deleteFilePath, hp, hb]

/-- C10 witness: the theorem at the scenario file, which has an explicit path. -/
theorem c10_witness : uploadKey file0 = deleteKey file0 :=
  c10_same_key file0 (Or.inl rfl)
